import Mathlib

/-!
Verification development for the MediSupply authentication backend
(user lifecycle orchestration and seller-client assignment subsystem).

The Python sources under `app/` are shallowly embedded: dictionaries of
submitted fields become records of `Option String`, the SQLAlchemy-backed
stores become lists of rows threaded through each operation, exceptions
become an explicit error type, and the Keycloak gateway becomes an oracle
(`Env`) injected into the orchestrators, mirroring how the service classes
receive a `keycloak_client`.
-/

deriving instance DecidableEq for Except

namespace MediSupply

/-- Python `str.strip()` on a list of characters. -/
def stripChars (l : List Char) : List Char :=
  ((l.dropWhile Char.isWhitespace).reverse.dropWhile Char.isWhitespace).reverse

/-- Python `str.strip()`. -/
def pyStrip (s : String) : String :=
  ⟨stripChars s.data⟩

/-- Python `len(s)` (number of characters). -/
def strLen (s : String) : Nat := s.data.length

/-- Python `str.split(sep)` on a list of characters: always returns at least
one (possibly empty) segment. -/
def splitChar (sep : Char) : List Char → List (List Char)
  | [] => [[]]
  | c :: t =>
    match splitChar sep t with
    | [] => [[]]
    | h :: r => if c = sep then [] :: h :: r else (c :: h) :: r

/-- Characters allowed in the local part of the email regular expression
`[a-zA-Z0-9._%+-]`. -/
def localChar (c : Char) : Bool :=
  c.isAlpha || c.isDigit || c = '.' || c = '_' || c = '%' || c = '+' || c = '-'

/-- Characters allowed in the domain part of the email regular expression
`[a-zA-Z0-9.-]`. -/
def domChar (c : Char) : Bool :=
  c.isAlpha || c.isDigit || c = '.' || c = '-'

/-- Full-match semantics of the pattern
`^[a-zA-Z0-9._%+-]+@[a-zA-Z0-9.-]+\.[a-zA-Z]\x7b2,\x7d$` used by
`User._is_valid_email` and `AdminUserCreate._is_valid_email`: the string
decomposes as local `@` middle `.` ext, checked by trying every position for
the literal `@` and the literal dot. -/
def emailRegexMatch (s : List Char) : Bool :=
  (List.range s.length).any fun i =>
    (List.range s.length).any fun j =>
      decide (i < j) && (s.getD i ' ' = '@') && (s.getD j ' ' = '.') &&
      (let l := s.take i
       let m := (s.drop (i + 1)).take (j - i - 1)
       let e := s.drop (j + 1)
       (decide (l ≠ [])) && l.all localChar &&
       (decide (m ≠ [])) && m.all domChar &&
       (decide (2 ≤ e.length)) && e.all Char.isAlpha)

/-- `User._is_valid_email`: the step-by-step checks of the Python method
(`@` present, exactly two `@`-parts, a dot in the domain, a ≥2-character
extension) followed by the regular-expression match. -/
def isValidEmail (email : String) : Bool :=
  let cs := email.data
  if ¬ cs.contains '@' then false
  else
    match splitChar '@' cs with
    | [_username, domain] =>
      if ¬ domain.contains '.' then false
      else
        let dparts := splitChar '.' domain
        if dparts.length < 2 then false
        else if (dparts.getLastD []).length < 2 then false
        else emailRegexMatch cs
    | _ => false

/-- Python `re.match(r'^\d+$', s)`: non-empty and all digits. -/
def digitsOnly (s : String) : Bool :=
  (decide (s.data ≠ [])) && s.data.all Char.isDigit

/-- The five role names of `get_available_roles` / the validators. -/
def validRoles : List String :=
  ["Administrador", "Compras", "Ventas", "Logistica", "Cliente"]

/-- Python `"; ".join(msgs)` as used by every validator in the code base. -/
def joinMsgs : List String → String
  | [] => ""
  | [m] => m
  | m :: m2 :: rest => m ++ "; " ++ joinMsgs (m2 :: rest)

/-- Python `pat in s` (substring containment), as a proposition on the
underlying character lists. -/
def strContains (hay pat : String) : Prop :=
  pat.data <:+: hay.data

instance (hay pat : String) : Decidable (strContains hay pat) :=
  inferInstanceAs (Decidable (pat.data <:+: hay.data))

/-- The domain model `User` (`app/models/user_model.py`).  Timestamps are
abstracted to naturals. -/
structure User where
  id : String
  name : String
  tax_id : String
  email : String
  address : String
  phone : String
  institution_type : String
  logo_filename : String
  logo_url : String
  specialty : String
  applicant_name : String
  applicant_email : String
  password : String
  confirm_password : String
  role : String
  keycloak_id : String
  enabled : Bool
  created_at : Nat
  updated_at : Nat
deriving DecidableEq

def msgNameReq : String := "El campo \u0027Nombre\u0027 es obligatorio"
def msgNameLen : String := "El campo \u0027Nombre\u0027 no puede exceder 100 caracteres"
def msgTaxReq : String := "El campo \u0027Número de identificación tributaria\u0027 es obligatorio"
def msgTaxLen : String := "El campo \u0027Número de identificación tributaria\u0027 no puede exceder 50 caracteres"
def msgEmailReq : String := "El campo \u0027Correo electrónico\u0027 es obligatorio"
def msgEmailLen : String := "El campo \u0027Correo electrónico\u0027 no puede exceder 100 caracteres"
def msgEmailFmt : String := "El campo \u0027Correo electrónico\u0027 debe tener un formato válido"
def msgAddrReq : String := "El campo \u0027Dirección\u0027 es obligatorio"
def msgAddrLen : String := "El campo \u0027Dirección\u0027 no puede exceder 200 caracteres"
def msgPhoneReq : String := "El campo \u0027Teléfono de contacto\u0027 es obligatorio"
def msgPhoneLen : String := "El campo \u0027Teléfono de contacto\u0027 no puede exceder 20 caracteres"
def msgPhoneDigits : String := "El campo \u0027Teléfono de contacto\u0027 debe contener solo números"
def msgInstReq : String := "El campo \u0027Tipo de institución\u0027 es obligatorio"
def msgInstEnum : String := "El campo \u0027Tipo de institución\u0027 debe ser: Clínica, Hospital o Laboratorio"
def msgLogoLen : String := "El campo \u0027Logo\u0027 no puede exceder 255 caracteres"
def msgSpecReq : String := "El campo \u0027Especialidad\u0027 es obligatorio"
def msgSpecEnum : String := "El campo \u0027Especialidad\u0027 debe ser: Cadena de frío, Alto valor o Seguridad"
def msgAppNameReq : String := "El campo \u0027Nombre del solicitante\u0027 es obligatorio"
def msgAppNameLen : String := "El campo \u0027Nombre del solicitante\u0027 no puede exceder 80 caracteres"
def msgAppEmailReq : String := "El campo \u0027Email del solicitante\u0027 es obligatorio"
def msgAppEmailLen : String := "El campo \u0027Email del solicitante\u0027 no puede exceder 100 caracteres"
def msgAppEmailFmt : String := "El campo \u0027Email del solicitante\u0027 debe tener un formato válido"
def msgPwReq : String := "El campo \u0027Contraseña\u0027 es obligatorio"
def msgPwLen : String := "El campo \u0027Contraseña\u0027 debe tener al menos 8 caracteres"
def msgConfirmReq : String := "El campo \u0027Confirmar contraseña\u0027 es obligatorio"
def msgPwMatch : String := "Los campos \u0027Contraseña\u0027 y \u0027Confirmar contraseña\u0027 deben ser iguales"
def msgRoleReq : String := "El campo \u0027Rol\u0027 es obligatorio"
def msgRoleEnum : String := "El campo \u0027Rol\u0027 debe ser uno de los siguientes: Administrador, Compras, Ventas, Logistica, Cliente"
def msgDupEmail : String := "Ya existe un usuario con este correo electrónico"

/-! Each `if`/`elif` block of `User.validate` contributes zero or one message
to the `errors` list; the blocks are transcribed one by one and the list is
their concatenation in source order. -/

def nameErrs (u : User) : List String :=
  if u.name = "" ∨ pyStrip u.name = "" then [msgNameReq]
  else if 100 < strLen (pyStrip u.name) then [msgNameLen]
  else []

def taxErrs (u : User) : List String :=
  if u.tax_id = "" ∨ pyStrip u.tax_id = "" then [msgTaxReq]
  else if 50 < strLen (pyStrip u.tax_id) then [msgTaxLen]
  else []

def emailErrs (u : User) : List String :=
  if u.email = "" ∨ pyStrip u.email = "" then [msgEmailReq]
  else if 100 < strLen (pyStrip u.email) then [msgEmailLen]
  else if ¬ isValidEmail (pyStrip u.email) then [msgEmailFmt]
  else []

def addrErrs (u : User) : List String :=
  if u.address = "" ∨ pyStrip u.address = "" then [msgAddrReq]
  else if 200 < strLen (pyStrip u.address) then [msgAddrLen]
  else []

def phoneErrs (u : User) : List String :=
  if u.phone = "" ∨ pyStrip u.phone = "" then [msgPhoneReq]
  else if 20 < strLen (pyStrip u.phone) then [msgPhoneLen]
  else if ¬ digitsOnly (pyStrip u.phone) then [msgPhoneDigits]
  else []

def instErrs (u : User) : List String :=
  if u.institution_type = "" ∨ pyStrip u.institution_type = "" then [msgInstReq]
  else if u.institution_type ∉ ["Clínica", "Hospital", "Laboratorio"] then [msgInstEnum]
  else []

def logoErrs (u : User) : List String :=
  if u.logo_filename ≠ "" ∧ 255 < strLen (pyStrip u.logo_filename) then [msgLogoLen]
  else []

def specErrs (u : User) : List String :=
  if u.specialty = "" ∨ pyStrip u.specialty = "" then [msgSpecReq]
  else if u.specialty ∉ ["Cadena de frío", "Alto valor", "Seguridad"] then [msgSpecEnum]
  else []

def appNameErrs (u : User) : List String :=
  if u.applicant_name = "" ∨ pyStrip u.applicant_name = "" then [msgAppNameReq]
  else if 80 < strLen (pyStrip u.applicant_name) then [msgAppNameLen]
  else []

def appEmailErrs (u : User) : List String :=
  if u.applicant_email = "" ∨ pyStrip u.applicant_email = "" then [msgAppEmailReq]
  else if 100 < strLen (pyStrip u.applicant_email) then [msgAppEmailLen]
  else if ¬ isValidEmail (pyStrip u.applicant_email) then [msgAppEmailFmt]
  else []

def pwErrs (u : User) : List String :=
  if u.password = "" ∨ pyStrip u.password = "" then [msgPwReq]
  else if strLen (pyStrip u.password) < 8 then [msgPwLen]
  else []

def confirmErrs (u : User) : List String :=
  if u.confirm_password = "" ∨ pyStrip u.confirm_password = "" then [msgConfirmReq]
  else []

def pwMatchErrs (u : User) : List String :=
  if u.password ≠ "" ∧ u.confirm_password ≠ "" ∧ u.password ≠ u.confirm_password
  then [msgPwMatch]
  else []

def roleErrs (u : User) : List String :=
  if u.role = "" ∨ pyStrip u.role = "" then [msgRoleReq]
  else if pyStrip u.role ∉ validRoles then [msgRoleEnum]
  else []

/-- The `errors` list accumulated by `User.validate`, in source order. -/
def userValidationErrors (u : User) : List String :=
  nameErrs u ++ taxErrs u ++ emailErrs u ++ addrErrs u ++ phoneErrs u ++
  instErrs u ++ logoErrs u ++ specErrs u ++ appNameErrs u ++ appEmailErrs u ++
  pwErrs u ++ confirmErrs u ++ pwMatchErrs u ++ roleErrs u

/-- `User.validate`: raises `ValueError("; ".join(errors))` when any rule is
violated, otherwise returns normally. -/
def User.validate (u : User) : Except String Unit :=
  match userValidationErrors u with
  | [] => .ok ()
  | es => .error (joinMsgs es)

/-- The `**kwargs` mapping handed to `create_user_with_validation`: an
`Option` per known field marks whether the key is present.  `logo_file`
uploads are outside this embedding (calls without a file attachment). -/
structure RegisterInput where
  name : Option String
  tax_id : Option String
  email : Option String
  address : Option String
  phone : Option String
  institution_type : Option String
  specialty : Option String
  applicant_name : Option String
  applicant_email : Option String
  password : Option String
  confirm_password : Option String
  role : Option String
  logo_filename : Option String
  logo_url : Option String
  enabled : Option Bool
deriving DecidableEq

/-- The two assignments `kwargs['role'] = 'Cliente'` and
`kwargs['enabled'] = False` at the top of `create_user_with_validation`. -/
def forceClient (i : RegisterInput) : RegisterInput :=
  { i with role := some "Cliente", enabled := some false }

/-- A database row of the `users_medisupply` table (`UserDB`).  The table has
no `role`, `password` or `confirm_password` column.  `keycloakId` is carried
for the admin-managed creation path (see `repoCreateAdminUser`); the ordinary
conversion `modelToDb` never sets it. -/
structure UserRow where
  id : String
  institution_name : String
  tax_id : String
  email : String
  address : String
  phone : String
  institution_type : String
  logo_filename : String
  logo_url : String
  specialty : String
  applicant_name : String
  applicant_email : String
  keycloakId : Option String
  enabled : Bool
  created_at : Nat
  updated_at : Nat
deriving DecidableEq

/-- A row of the `assigned_clients` table; the domain model
`AssignedClient` has the same attributes, so one structure serves both. -/
structure AssignedClient where
  id : String
  seller_id : String
  client_id : String
  created_at : Nat
  updated_at : Nat
deriving DecidableEq

/-- The two stores owned by the repositories. -/
structure St where
  users : List UserRow
  assigns : List AssignedClient
deriving DecidableEq

/-- The error taxonomy of `app/exceptions/custom_exceptions.py` as surfaced
by the services. -/
inductive AppError where
  | validation (msg : String)
  | business (msg : String)
  | notFound (msg : String)
deriving DecidableEq

/-- Exceptions escaping the repository layer: `ValueError` from model
validation or uniqueness pre-checks, and the generic `Exception` raised on
`SQLAlchemyError`. -/
inductive PyError where
  | valueError (msg : String)
  | sqlError (msg : String)
deriving DecidableEq

/-- One outbound call to the Keycloak gateway, recorded for observability of
the mirroring step. -/
inductive KcCall where
  | createU (email password name : String)
  | assignR (userId roleName : String)
  | deleteU (userId : String)
deriving DecidableEq

/-- The environment of a single orchestrator call: the generated UUIDs, the
clock, the responses of the external Keycloak gateway and whether the
best-effort local delete of the compensation path itself fails. -/
structure Env where
  freshId : String
  freshAssignId : String
  now : Nat
  kcCreateRes : String → String → String → Except String String
  kcAssignRes : String → String → Except String Unit
  kcDeleteRes : String → Except String Unit
  dbDeleteFails : Bool

/-- `User(**kwargs)`: every attribute defaults to the empty string
(`enabled` to `False`, the id to a fresh UUID, timestamps to now). -/
def mkUser (env : Env) (i : RegisterInput) : User :=
  { id := env.freshId
    name := i.name.getD ""
    tax_id := i.tax_id.getD ""
    email := i.email.getD ""
    address := i.address.getD ""
    phone := i.phone.getD ""
    institution_type := i.institution_type.getD ""
    logo_filename := i.logo_filename.getD ""
    logo_url := i.logo_url.getD ""
    specialty := i.specialty.getD ""
    applicant_name := i.applicant_name.getD ""
    applicant_email := i.applicant_email.getD ""
    password := i.password.getD ""
    confirm_password := i.confirm_password.getD ""
    role := i.role.getD ""
    keycloak_id := ""
    enabled := i.enabled.getD false
    created_at := env.now
    updated_at := env.now }

/-- `UserRepository._model_to_db`.  The source copies each attribute of the
domain model into the row; `base_model.py` is not under src/, so the copy is
modelled field-preservingly as the repository's own conversion tests
(`test_model_to_db_conversion`) exercise it, with the model's `name`
feeding the row's `institution_name` column. -/
def modelToDb (u : User) : UserRow :=
  { id := u.id
    institution_name := u.name
    tax_id := u.tax_id
    email := u.email
    address := u.address
    phone := u.phone
    institution_type := u.institution_type
    logo_filename := u.logo_filename
    logo_url := u.logo_url
    specialty := u.specialty
    applicant_name := u.applicant_name
    applicant_email := u.applicant_email
    keycloakId := none
    enabled := u.enabled
    created_at := u.created_at
    updated_at := u.updated_at }

/-- `UserRepository._db_to_model`: the row back into a domain model; the
columns absent from the table (`password`, `confirm_password`, `role`) come
back as the model's defaults. -/
def dbToModel (r : UserRow) : User :=
  { id := r.id
    name := r.institution_name
    tax_id := r.tax_id
    email := r.email
    address := r.address
    phone := r.phone
    institution_type := r.institution_type
    logo_filename := r.logo_filename
    logo_url := r.logo_url
    specialty := r.specialty
    applicant_name := r.applicant_name
    applicant_email := r.applicant_email
    password := ""
    confirm_password := ""
    role := ""
    keycloak_id := (r.keycloakId.getD "")
    enabled := r.enabled
    created_at := r.created_at
    updated_at := r.updated_at }

/-- `UserRepository.get_by_id`: first row with the given id. -/
def repoGetUserById (st : St) (uid : String) : Option User :=
  (st.users.find? fun r => r.id == uid).map dbToModel

/-- `UserRepository.get_by_email`: first row with the given email. -/
def repoGetUserByEmail (st : St) (email : String) : Option User :=
  (st.users.find? fun r => r.email == email).map dbToModel

/-- `UserRepository.create`: builds the domain model, runs `User.validate`
(`ValueError` on failure), pre-checks email uniqueness (`ValueError`), and
inserts; the table's unique constraints (primary-key id, unique email) make
a conflicting insert fail with `SQLAlchemyError`, re-raised as a generic
exception. -/
def repoCreateUser (env : Env) (st : St) (i : RegisterInput) :
    Except PyError User × St :=
  match User.validate (mkUser env i) with
  | .error m => (.error (.valueError m), st)
  | .ok _ =>
    if st.users.any fun r => r.email == (mkUser env i).email then
      (.error (.valueError msgDupEmail), st)
    else if st.users.any fun r => r.id == (mkUser env i).id then
      (.error (.sqlError "Error al crear usuario: UNIQUE constraint failed"), st)
    else
      (.ok (dbToModel (modelToDb (mkUser env i))),
       { st with users := st.users ++ [modelToDb (mkUser env i)] })

/-- `UserRepository.delete`: removes the first row with the given id; a
`SQLAlchemyError` (injected through `env.dbDeleteFails`) surfaces as a
generic exception and leaves the store unchanged. -/
def repoDeleteUser (fails : Bool) (st : St) (uid : String) :
    Except String Bool × St :=
  if fails then (.error "Error al eliminar usuario: db", st)
  else
    match st.users.find? fun r => r.id == uid with
    | none => (.ok false, st)
    | some _ =>
      (.ok true, { st with users := st.users.eraseP fun r => r.id == uid })

/-- Python `kwargs[k].strip() if kwargs[k] else ''`. -/
def stripIfTruthy (v : String) : String :=
  if v = "" then "" else pyStrip v

def svcMsgNameLen : String := "El nombre no puede exceder 100 caracteres"
def svcMsgNameMin : String := "El nombre debe tener al menos 2 caracteres"
def svcMsgEmailLen : String := "El correo electrónico no puede exceder 100 caracteres"
def svcMsgTaxLen : String := "El número de identificación tributaria no puede exceder 50 caracteres"
def svcMsgAddrLen : String := "La dirección no puede exceder 200 caracteres"
def svcMsgPhoneLen : String := "El teléfono no puede exceder 20 caracteres"
def svcMsgPhoneMin : String := "El teléfono debe tener al menos 7 dígitos"
def svcMsgPhoneDigits : String := "El teléfono debe contener solo números"
def svcMsgInstEnum : String := "El tipo de institución debe ser: Clínica, Hospital o Laboratorio"
def svcMsgSpecEnum : String := "La especialidad debe ser: Cadena de frío, Alto valor o Seguridad"
def svcMsgAppNameLen : String := "El nombre del solicitante no puede exceder 80 caracteres"
def svcMsgAppEmailLen : String := "El email del solicitante no puede exceder 100 caracteres"
def svcMsgAppEmailFmt : String := "El email del solicitante debe tener un formato válido"

/-! The blocks of `UserService.validate_business_rules`, transcribed in
source order; each block is guarded on the key being present in `kwargs`
(and, for the optional fields, on a truthy value). -/

def svcNameErrs (i : RegisterInput) : List String :=
  match i.name with
  | none => []
  | some v =>
    let n := stripIfTruthy v
    if n = "" then [msgNameReq]
    else if 100 < strLen n then [svcMsgNameLen]
    else if strLen n < 2 then [svcMsgNameMin]
    else []

def svcEmailErrs (i : RegisterInput) : List String :=
  match i.email with
  | none => []
  | some v =>
    let e := stripIfTruthy v
    if e = "" then [msgEmailReq]
    else if 100 < strLen e then [svcMsgEmailLen]
    else if ¬ e.data.contains '@' ∨
        ¬ ((splitChar '@' e.data).getLastD []).contains '.' then [msgEmailFmt]
    else []

def svcPwErrs (i : RegisterInput) : List String :=
  match i.password with
  | none => []
  | some v =>
    let p := stripIfTruthy v
    if p = "" then [msgPwReq]
    else if strLen p < 8 then [msgPwLen]
    else []

def svcConfirmErrs (i : RegisterInput) : List String :=
  match i.confirm_password with
  | none => []
  | some v => if stripIfTruthy v = "" then [msgConfirmReq] else []

def svcPwMatchErrs (i : RegisterInput) : List String :=
  match i.password, i.confirm_password with
  | some p, some c => if p ≠ c then [msgPwMatch] else []
  | _, _ => []

def svcTaxErrs (i : RegisterInput) : List String :=
  match i.tax_id with
  | some v => if v ≠ "" ∧ 50 < strLen (pyStrip v) then [svcMsgTaxLen] else []
  | none => []

def svcAddrErrs (i : RegisterInput) : List String :=
  match i.address with
  | some v => if v ≠ "" ∧ 200 < strLen (pyStrip v) then [svcMsgAddrLen] else []
  | none => []

def svcPhoneErrs (i : RegisterInput) : List String :=
  match i.phone with
  | some v =>
    if v = "" then []
    else
      let p := pyStrip v
      if 20 < strLen p then [svcMsgPhoneLen]
      else if strLen p < 7 then [svcMsgPhoneMin]
      else if ¬ p.data.all Char.isDigit then [svcMsgPhoneDigits]
      else []
  | none => []

def svcInstErrs (i : RegisterInput) : List String :=
  match i.institution_type with
  | some v =>
    if v ≠ "" ∧ v ∉ ["Clínica", "Hospital", "Laboratorio"] then [svcMsgInstEnum]
    else []
  | none => []

def svcSpecErrs (i : RegisterInput) : List String :=
  match i.specialty with
  | some v =>
    if v ≠ "" ∧ v ∉ ["Cadena de frío", "Alto valor", "Seguridad"] then [svcMsgSpecEnum]
    else []
  | none => []

def svcAppNameErrs (i : RegisterInput) : List String :=
  match i.applicant_name with
  | some v => if v ≠ "" ∧ 80 < strLen (pyStrip v) then [svcMsgAppNameLen] else []
  | none => []

def svcAppEmailErrs (i : RegisterInput) : List String :=
  match i.applicant_email with
  | some v =>
    if v = "" then []
    else
      let e := pyStrip v
      if 100 < strLen e then [svcMsgAppEmailLen]
      else if ¬ e.data.contains '@' ∨
          ¬ ((splitChar '@' e.data).getLastD []).contains '.' then [svcMsgAppEmailFmt]
      else []
  | none => []

def svcRoleErrs (i : RegisterInput) : List String :=
  match i.role with
  | none => []
  | some v =>
    let r := stripIfTruthy v
    if r = "" then [msgRoleReq]
    else if r ∉ validRoles then [msgRoleEnum]
    else []

def svcUniqueEmailErrs (st : St) (i : RegisterInput) : List String :=
  match i.email with
  | some v =>
    if v ≠ "" ∧ (repoGetUserByEmail st (pyStrip v)).isSome then [msgDupEmail]
    else []
  | none => []

/-- The `errors` list accumulated by `validate_business_rules`, in source
order (the email-uniqueness lookup included). -/
def svcValidationErrors (st : St) (i : RegisterInput) : List String :=
  svcNameErrs i ++ svcEmailErrs i ++ svcPwErrs i ++ svcConfirmErrs i ++
  svcPwMatchErrs i ++ svcTaxErrs i ++ svcAddrErrs i ++ svcPhoneErrs i ++
  svcInstErrs i ++ svcSpecErrs i ++ svcAppNameErrs i ++ svcAppEmailErrs i ++
  svcRoleErrs i ++ svcUniqueEmailErrs st i

/-- `UserService.create`: business-rule validation (a `ValueError` becomes
`ValidationError`), then the repository insert (a generic exception becomes
`BusinessLogicError` with the operation prefix).  Logo-file processing is
skipped: no file is attached in this embedding. -/
def svcCreateUser (env : Env) (st : St) (i : RegisterInput) :
    Except AppError User × St :=
  match svcValidationErrors st i with
  | [] =>
    match repoCreateUser env st i with
    | (.error (.valueError m), st1) => (.error (.validation m), st1)
    | (.error (.sqlError m), st1) =>
      (.error (.business ("Error al crear usuario: " ++ m)), st1)
    | (.ok u, st1) => (.ok u, st1)
  | es => (.error (.validation (joinMsgs es)), st)

/-- `KeycloakClient.assign_role_to_user`: rejects a role missing from the
realm mapping, otherwise performs the gateway call. -/
def kcAssignRole (env : Env) (uid roleName : String) : Except String Unit :=
  if roleName ∉ validRoles then
    .error ("Rol \u0027" ++ roleName ++
      "\u0027 no válido. Roles disponibles: Administrador, Compras, Ventas, Logistica, Cliente")
  else env.kcAssignRes uid roleName

/-- The remote mirror step of `create_user_with_validation`: create the
Keycloak user, then assign the forced `Cliente` role; either failure is
wrapped once as the Keycloak business error.  The call trace is returned
alongside. -/
def kcMirror (env : Env) (email password name : String) :
    Except String String × List KcCall :=
  match env.kcCreateRes email password name with
  | .error e =>
    (.error ("Error al crear usuario en Keycloak: " ++ e),
     [.createU email password name])
  | .ok kid =>
    match kcAssignRole env kid "Cliente" with
    | .error e =>
      (.error ("Error al crear usuario en Keycloak: " ++ e),
       [.createU email password name, .assignR kid "Cliente"])
    | .ok _ => (.ok kid, [.createU email password name, .assignR kid "Cliente"])

/-- The body of `create_user_with_validation` after the two forcing
assignments: validates through the model, checks the role against the
gateway's available roles, persists locally, mirrors into Keycloak, and on
mirror failure deletes the local record best-effort and fails with
`BusinessLogicError`. -/
def registerUserForced (env : Env) (i : RegisterInput) (st : St) :
    Except AppError User × St × List KcCall :=
  match User.validate (mkUser env i) with
  | .error m => (.error (.validation m), st, [])
  | .ok _ =>
    if i.role.getD "" ∉ validRoles then
      (.error (.validation ("Rol \u0027" ++ i.role.getD "" ++
        "\u0027 no válido. Roles disponibles: Administrador, Compras, Ventas, Logistica, Cliente")), st, [])
    else
      match svcCreateUser env st i with
      | (.error (.validation m), st1) => (.error (.validation m), st1, [])
      | (.error (.business m), st1) =>
        (.error (.business ("Error al crear usuario: " ++ m)), st1, [])
      | (.error (.notFound m), st1) =>
        (.error (.business ("Error al crear usuario: " ++ m)), st1, [])
      | (.ok user, st1) =>
        match kcMirror env (i.email.getD "") (i.password.getD "") (i.name.getD "") with
        | (.error m, calls) =>
          let st2 := (repoDeleteUser env.dbDeleteFails st1 user.id).2
          (.error (.business ("Error al crear usuario: " ++ m)), st2, calls)
        | (.ok _, calls) => (.ok user, st1, calls)

/-- `UserService.create_user_with_validation` (the RegisterUser operation):
its first two statements force `role='Cliente'` and `enabled=False` on the
caller's kwargs; the rest of the body runs on the forced mapping. -/
def registerUser (env : Env) (i0 : RegisterInput) (st : St) :
    Except AppError User × St × List KcCall :=
  registerUserForced env (forceClient i0) st

/-! ### User update (`UserRepository.update`) -/

/-- A value carried in an update `kwargs` mapping. -/
inductive Val where
  | str (s : String)
  | bool (b : Bool)
  | nat (n : Nat)
deriving DecidableEq

/-- The column attributes of a `UserDB` row, i.e. the keys for which
`hasattr(db_user, key)` holds. -/
def userColumns : List String :=
  ["id", "institution_name", "tax_id", "email", "address", "phone",
   "institution_type", "logo_filename", "logo_url", "specialty",
   "applicant_name", "applicant_email", "enabled", "created_at", "updated_at"]

/-- One iteration of the update loop: `setattr(db_user, key, value)` when
the key names a column, identity otherwise.  Values are modelled at the
column's type. -/
def applyCol (r : UserRow) (k : String) (v : Val) : UserRow :=
  if k = "id" then (match v with | .str s => { r with id := s } | _ => r)
  else if k = "institution_name" then
    (match v with | .str s => { r with institution_name := s } | _ => r)
  else if k = "tax_id" then (match v with | .str s => { r with tax_id := s } | _ => r)
  else if k = "email" then (match v with | .str s => { r with email := s } | _ => r)
  else if k = "address" then (match v with | .str s => { r with address := s } | _ => r)
  else if k = "phone" then (match v with | .str s => { r with phone := s } | _ => r)
  else if k = "institution_type" then
    (match v with | .str s => { r with institution_type := s } | _ => r)
  else if k = "logo_filename" then
    (match v with | .str s => { r with logo_filename := s } | _ => r)
  else if k = "logo_url" then (match v with | .str s => { r with logo_url := s } | _ => r)
  else if k = "specialty" then (match v with | .str s => { r with specialty := s } | _ => r)
  else if k = "applicant_name" then
    (match v with | .str s => { r with applicant_name := s } | _ => r)
  else if k = "applicant_email" then
    (match v with | .str s => { r with applicant_email := s } | _ => r)
  else if k = "enabled" then (match v with | .bool b => { r with enabled := b } | _ => r)
  else if k = "created_at" then (match v with | .nat n => { r with created_at := n } | _ => r)
  else if k = "updated_at" then (match v with | .nat n => { r with updated_at := n } | _ => r)
  else r

/-- The `for key, value in kwargs.items()` loop of `UserRepository.update`. -/
def applyKwargs (r : UserRow) (kwargs : List (String × Val)) : UserRow :=
  kwargs.foldl (fun acc p => applyCol acc p.1 p.2) r

/-- Reads a column of a row back as a `Val` (for frame statements). -/
def colVal (r : UserRow) (c : String) : Option Val :=
  if c = "id" then some (.str r.id)
  else if c = "institution_name" then some (.str r.institution_name)
  else if c = "tax_id" then some (.str r.tax_id)
  else if c = "email" then some (.str r.email)
  else if c = "address" then some (.str r.address)
  else if c = "phone" then some (.str r.phone)
  else if c = "institution_type" then some (.str r.institution_type)
  else if c = "logo_filename" then some (.str r.logo_filename)
  else if c = "logo_url" then some (.str r.logo_url)
  else if c = "specialty" then some (.str r.specialty)
  else if c = "applicant_name" then some (.str r.applicant_name)
  else if c = "applicant_email" then some (.str r.applicant_email)
  else if c = "enabled" then some (.bool r.enabled)
  else if c = "created_at" then some (.nat r.created_at)
  else if c = "updated_at" then some (.nat r.updated_at)
  else none

/-- Replaces the first row with the given id (the mutation of the object
returned by `.first()`). -/
def replaceFirstById : List UserRow → String → UserRow → List UserRow
  | [], _, _ => []
  | r :: t, uid, new =>
    if r.id == uid then new :: t else r :: replaceFirstById t uid new

/-- `UserRepository.update`: `None` when no row has the id; otherwise applies
every kwarg naming a column, refreshes `updated_at`, commits, and returns the
updated record. -/
def repoUpdateUser (st : St) (uid : String) (kwargs : List (String × Val))
    (now : Nat) : Option User × St :=
  match st.users.find? fun r => r.id == uid with
  | none => (none, st)
  | some row =>
    let row2 := { applyKwargs row kwargs with updated_at := now }
    (some (dbToModel row2), { st with users := replaceFirstById st.users uid row2 })

/-! ### Admin-managed creation (`AdminUserCreate`, `create_admin_user`) -/

def msgAdmNameReq : String := "El campo \u0027name\u0027 es obligatorio"
def msgAdmNameLen : String := "El campo \u0027name\u0027 no puede exceder 100 caracteres"
def msgAdmEmailReq : String := "El campo \u0027email\u0027 es obligatorio"
def msgAdmEmailLen : String := "El campo \u0027email\u0027 no puede exceder 100 caracteres"
def msgAdmEmailFmt : String := "El campo \u0027email\u0027 debe ser un email válido"
def msgAdmPwReq : String := "El campo \u0027password\u0027 es obligatorio"
def msgAdmPwLen : String := "El campo \u0027password\u0027 debe tener al menos 8 caracteres"
def msgAdmConfirmReq : String := "El campo \u0027confirm_password\u0027 es obligatorio"
def msgAdmPwMatch : String := "Los campos \u0027password\u0027 y \u0027confirm_password\u0027 deben ser iguales"
def msgAdmRoleReq : String := "El campo \u0027role\u0027 es obligatorio"
def msgAdmRoleEnum : String := "El campo \u0027role\u0027 debe ser uno de los siguientes: Administrador, Compras, Ventas, Logistica, Cliente"

/-- The `AdminUserCreate` model (`app/models/user_model.py`). -/
structure AdminUserCreate where
  name : String
  email : String
  password : String
  confirm_password : String
  role : String
deriving DecidableEq

/-- The `errors` list of `AdminUserCreate.validate`, in source order. -/
def adminValidationErrors (a : AdminUserCreate) : List String :=
  (if a.name = "" ∨ pyStrip a.name = "" then [msgAdmNameReq]
   else if 100 < strLen (pyStrip a.name) then [msgAdmNameLen] else []) ++
  (if a.email = "" ∨ pyStrip a.email = "" then [msgAdmEmailReq]
   else if 100 < strLen (pyStrip a.email) then [msgAdmEmailLen]
   else if ¬ emailRegexMatch (pyStrip a.email).data then [msgAdmEmailFmt] else []) ++
  (if a.password = "" ∨ pyStrip a.password = "" then [msgAdmPwReq]
   else if strLen (pyStrip a.password) < 8 then [msgAdmPwLen] else []) ++
  (if a.confirm_password = "" ∨ pyStrip a.confirm_password = "" then [msgAdmConfirmReq]
   else []) ++
  (if a.password ≠ "" ∧ a.confirm_password ≠ "" ∧ a.password ≠ a.confirm_password
   then [msgAdmPwMatch] else []) ++
  (if a.role = "" ∨ pyStrip a.role = "" then [msgAdmRoleReq]
   else if pyStrip a.role ∉ validRoles then [msgAdmRoleEnum] else [])

/-- `AdminUserCreate.validate`. -/
def AdminUserCreate.validate (a : AdminUserCreate) : Except String Unit :=
  match adminValidationErrors a with
  | [] => .ok ()
  | es => .error (joinMsgs es)

/-- Modelled from the spec: `UserRepository.create_admin_user` is called by
`UserService.create_admin_user` and exercised by
`test_user_repository_extended.py`, but its definition is not under src/.
Per spec §4.2 it persists the local record with `enabled=true` immediately
and a recorded remote-identity reference (`keycloak_id`); per its tests it
rejects an empty name or email and a duplicate email.  The row's other
columns stay at their defaults. -/
def repoCreateAdminUser (env : Env) (st : St) (name email kcId : String)
    (enabled : Bool) : Except PyError User × St :=
  if pyStrip name = "" then (.error (.valueError msgAdmNameReq), st)
  else if pyStrip email = "" then (.error (.valueError msgAdmEmailReq), st)
  else if st.users.any fun r => r.email == email then
    (.error (.valueError msgDupEmail), st)
  else
    let row : UserRow :=
      { id := env.freshId, institution_name := name, tax_id := "", email := email,
        address := "", phone := "", institution_type := "", logo_filename := "",
        logo_url := "", specialty := "", applicant_name := "", applicant_email := "",
        keycloakId := some kcId, enabled := enabled,
        created_at := env.now, updated_at := env.now }
    (.ok { dbToModel row with name := name, keycloak_id := kcId },
     { st with users := st.users ++ [row] })

/-- The summary dictionary returned by `UserService.create_admin_user`. -/
structure AdminSummary where
  id : String
  name : String
  email : String
  role : String
  enabled : Bool
  created_at : Nat
deriving DecidableEq

/-- `UserService.create_admin_user` (the CreateAdminManagedUser operation):
validates the lighter `AdminUserCreate` rule set, checks email uniqueness
(`BusinessLogicError` on duplicate), creates the remote identity, assigns
the requested role, persists the local record with `enabled=True` and the
`keycloak_id`, and returns the summary; on any failure after remote creation
it best-effort deletes the remote identity and fails with
`BusinessLogicError`. -/
def createAdminUser (env : Env) (st : St) (name email password role : String) :
    Except AppError AdminSummary × St × List KcCall :=
  match AdminUserCreate.validate
      { name := name, email := email, password := password,
        confirm_password := password, role := role } with
  | .error m => (.error (.validation m), st, [])
  | .ok _ =>
    if (repoGetUserByEmail st email).isSome then
      (.error (.business "Ya existe un usuario con este email"), st, [])
    else
      match env.kcCreateRes email password name with
      | .error e =>
        (.error (.business ("Error al crear usuario: " ++ e)), st,
         [.createU email password name])
      | .ok kid =>
        match kcAssignRole env kid role with
        | .error e =>
          (.error (.business ("Error al crear usuario: " ++ e)), st,
           [.createU email password name, .assignR kid role, .deleteU kid])
        | .ok _ =>
          match repoCreateAdminUser env st name email kid true with
          | (.error pe, st1) =>
            (.error (.business ("Error al crear usuario: " ++
              (match pe with | .valueError m => m | .sqlError m => m))), st1,
             [.createU email password name, .assignR kid role, .deleteU kid])
          | (.ok cu, st1) =>
            (.ok { id := cu.id, name := cu.name, email := cu.email, role := role,
                   enabled := cu.enabled, created_at := cu.created_at }, st1,
             [.createU email password name, .assignR kid role])

/-! ### Seller-client assignments (`assigned_client` model/repository/service) -/

def msgSellerReq : String := "El campo \u0027seller_id\u0027 es obligatorio"
def msgClientReq : String := "El campo \u0027client_id\u0027 es obligatorio"
def msgOwnClient : String := "El vendedor no puede ser asignado como su propio cliente"
def msgAssignDup : String := "Esta asignación vendedor-cliente ya existe"

/-- Missing-seller / missing-client messages of
`AssignedClientService.validate_business_rules`. -/
def msgNoSeller (s : String) : String := "No existe un vendedor con ID: " ++ s

def msgNoClient (c : String) : String := "No existe un cliente con ID: " ++ c

/-- `NotFoundError` message of `get_assigned_clients_with_details`. -/
def msgSellerNotFound (s : String) : String :=
  "No se encontró el vendedor con ID: " ++ s

/-- The `errors` list of `AssignedClient.validate`, in source order. -/
def assignValidationErrors (a : AssignedClient) : List String :=
  (if a.seller_id = "" ∨ pyStrip a.seller_id = "" then [msgSellerReq] else []) ++
  (if a.client_id = "" ∨ pyStrip a.client_id = "" then [msgClientReq] else []) ++
  (if a.seller_id ≠ "" ∧ a.client_id ≠ "" ∧ a.seller_id = a.client_id
   then [msgOwnClient] else [])

/-- `AssignedClientRepository.exists_assignment`: a row with exactly this
seller and client pair. -/
def existsAssignment (st : St) (sellerId clientId : String) : Bool :=
  st.assigns.any fun a => a.seller_id == sellerId && a.client_id == clientId

/-- Number of stored rows for a (seller, client) pair. -/
def pairCount (st : St) (sellerId clientId : String) : Nat :=
  (st.assigns.filter fun a => a.seller_id == sellerId && a.client_id == clientId).length

/-- `AssignedClientRepository.create`: builds the domain model from the raw
kwargs (no stripping), validates it (`ValueError`), re-checks pair
uniqueness against the table (`ValueError` containing "ya existe"), and
inserts. -/
def repoCreateAssign (env : Env) (st : St) (sellerId clientId : Option String) :
    Except PyError AssignedClient × St :=
  match assignValidationErrors
      { id := env.freshAssignId, seller_id := sellerId.getD "",
        client_id := clientId.getD "", created_at := env.now,
        updated_at := env.now } with
  | e :: es => (.error (.valueError (joinMsgs (e :: es))), st)
  | [] =>
    if existsAssignment st (sellerId.getD "") (clientId.getD "") then
      (.error (.valueError msgAssignDup), st)
    else
      (.ok { id := env.freshAssignId, seller_id := sellerId.getD "",
             client_id := clientId.getD "", created_at := env.now,
             updated_at := env.now },
       { st with assigns := st.assigns ++
           [{ id := env.freshAssignId, seller_id := sellerId.getD "",
              client_id := clientId.getD "", created_at := env.now,
              updated_at := env.now }] })

/-- The `errors` list of `AssignedClientService.validate_business_rules`:
all checks run on the *stripped* ids, in source order. -/
def svcAssignValidationErrors (st : St) (sellerId clientId : Option String) :
    List String :=
  let s := stripIfTruthy (sellerId.getD "")
  let c := stripIfTruthy (clientId.getD "")
  (if s = "" then [msgSellerReq] else []) ++
  (if c = "" then [msgClientReq] else []) ++
  (if s ≠ "" ∧ c ≠ "" ∧ s = c then [msgOwnClient] else []) ++
  (if s ≠ "" ∧ (repoGetUserById st s).isNone then [msgNoSeller s] else []) ++
  (if c ≠ "" ∧ (repoGetUserById st c).isNone then [msgNoClient c] else []) ++
  (if s ≠ "" ∧ c ≠ "" ∧ existsAssignment st s c then [msgAssignDup] else [])

/-- `AssignedClientService.create` (the CreateAssignment operation):
validates the business rules (`ValueError` → `ValidationError`), inserts the
assignment through the repository, then — when `kwargs.get('client_id')` is
truthy — sets the client's `enabled` flag to `True` through
`UserRepository.update` with the *unstripped* id. -/
def svcCreateAssignment (env : Env) (st : St) (sellerId clientId : Option String) :
    Except AppError AssignedClient × St :=
  match svcAssignValidationErrors st sellerId clientId with
  | e :: es => (.error (.validation (joinMsgs (e :: es))), st)
  | [] =>
    match repoCreateAssign env st sellerId clientId with
    | (.error (.valueError m), st1) => (.error (.validation m), st1)
    | (.error (.sqlError m), st1) =>
      (.error (.business ("Error al crear asignación: " ++ m)), st1)
    | (.ok a, st1) =>
      match clientId with
      | some c =>
        if c ≠ "" then (.ok a, (repoUpdateUser st1 c [("enabled", .bool true)] env.now).2)
        else (.ok a, st1)
      | none => (.ok a, st1)

/-- `AssignedClientRepository.get_by_seller_id`: the rows of one seller
(the source orders them by `created_at` descending; with rows appended in
creation order that is the reverse of store order). -/
def repoAssignsBySeller (st : St) (sellerId : String) : List AssignedClient :=
  (st.assigns.filter fun a => a.seller_id == sellerId).reverse

/-- `User.to_dict()`: the public projection of a user (no password, no
role, no keycloak reference). -/
structure UserDict where
  id : String
  name : String
  tax_id : String
  email : String
  address : String
  phone : String
  institution_type : String
  logo_filename : String
  logo_url : String
  specialty : String
  applicant_name : String
  applicant_email : String
  enabled : Bool
  created_at : Nat
  updated_at : Nat
deriving DecidableEq

def User.toDict (u : User) : UserDict :=
  { id := u.id, name := u.name, tax_id := u.tax_id, email := u.email,
    address := u.address, phone := u.phone, institution_type := u.institution_type,
    logo_filename := u.logo_filename, logo_url := u.logo_url,
    specialty := u.specialty, applicant_name := u.applicant_name,
    applicant_email := u.applicant_email, enabled := u.enabled,
    created_at := u.created_at, updated_at := u.updated_at }

/-- `AssignedClientService.get_assigned_clients_with_details`: fails with
`NotFoundError` when the seller id resolves to no user; otherwise resolves
each assignment's client and silently skips (logs) the ones that no longer
exist. -/
def getAssignedClientsWithDetails (st : St) (sellerId : String) :
    Except AppError (List UserDict) :=
  match repoGetUserById st sellerId with
  | none => .error (.notFound (msgSellerNotFound sellerId))
  | some _ =>
    .ok ((repoAssignsBySeller st sellerId).filterMap fun a =>
      (repoGetUserById st a.client_id).map User.toDict)

/-! ### General lemmas -/

/-- Every message of a list is a substring of its `"; "`-join. -/
theorem joinMsgs_contains_of_mem {es : List String} {m : String} (h : m ∈ es) :
    strContains (joinMsgs es) m := by
  induction es with
  | nil => cases h
  | cons a rest ih =>
    cases rest with
    | nil =>
      rcases List.mem_singleton.mp h with rfl
      exact List.infix_refl _
    | cons b t =>
      rcases List.mem_cons.mp h with rfl | hm
      · show m.data <:+: (m ++ "; " ++ joinMsgs (b :: t)).data
        rw [String.data_append, String.data_append]
        exact ⟨[], "; ".data ++ (joinMsgs (b :: t)).data, by simp⟩
      · show m.data <:+: (a ++ "; " ++ joinMsgs (b :: t)).data
        rw [String.data_append, String.data_append]
        exact (ih hm).trans ⟨a.data ++ "; ".data, [], by simp⟩

theorem strContains_trans {a b c : String} (h1 : strContains b c)
    (h2 : strContains a b) : strContains a c :=
  List.IsInfix.trans h1 h2

/-- `User.validate` fails with the joined error list whenever it is
non-empty. -/
theorem validate_error_of_ne {u : User} (h : userValidationErrors u ≠ []) :
    User.validate u = .error (joinMsgs (userValidationErrors u)) := by
  unfold User.validate
  split
  · next heq => exact absurd heq h
  · rfl

/-- `User.validate` succeeds exactly on an empty error list. -/
theorem validate_ok_iff {u : User} :
    User.validate u = .ok () ↔ userValidationErrors u = [] := by
  constructor
  · intro h
    unfold User.validate at h
    split at h
    · next heq => exact heq
    · cases h
  · intro h
    unfold User.validate
    split
    · rfl
    · next hne => exact absurd h hne

/-- Inverting a successful `UserService.create` call: both validators
passed, the new row is the converted model appended to the store, and no
pre-existing row shared its email or id. -/
theorem svcCreateUser_ok_inversion {env : Env} {st : St} {i : RegisterInput}
    {u : User} {st1 : St}
    (h : svcCreateUser env st i = (.ok u, st1)) :
    userValidationErrors (mkUser env i) = [] ∧
    svcValidationErrors st i = [] ∧
    u = dbToModel (modelToDb (mkUser env i)) ∧
    st1 = { st with users := st.users ++ [modelToDb (mkUser env i)] } ∧
    (∀ r ∈ st.users, ¬ r.email = (mkUser env i).email) ∧
    (∀ r ∈ st.users, ¬ r.id = (mkUser env i).id) := by
  unfold svcCreateUser at h
  cases hsvc : svcValidationErrors st i with
  | cons e es => rw [hsvc] at h; cases h
  | nil =>
    rw [hsvc] at h
    cases hrc : repoCreateUser env st i with
    | mk res st2 =>
      rw [hrc] at h
      cases res with
      | error pe => cases pe <;> cases h
      | ok u2 =>
        obtain ⟨rfl, rfl⟩ : u2 = u ∧ st2 = st1 := by
          injection h with h1 h2
          injection h1 with h3
          exact ⟨h3, h2⟩
        unfold repoCreateUser at hrc
        cases hval : User.validate (mkUser env i) with
        | error m => rw [hval] at hrc; cases hrc
        | ok v =>
          cases v
          rw [hval] at hrc
          by_cases heml : st.users.any (fun r => r.email == (mkUser env i).email)
          · rw [if_pos heml] at hrc; cases hrc
          · rw [if_neg heml] at hrc
            by_cases hid : st.users.any (fun r => r.id == (mkUser env i).id)
            · rw [if_pos hid] at hrc; cases hrc
            · rw [if_neg hid] at hrc
              injection hrc with he1 he2
              injection he1 with he1
              refine ⟨validate_ok_iff.mp hval, rfl, he1.symm, he2.symm, ?_, ?_⟩
              · intro r hr hemail
                exact heml (List.any_eq_true.mpr ⟨r, hr, by simp [hemail]⟩)
              · intro r hr hidr
                exact hid (List.any_eq_true.mpr ⟨r, hr, by simp [hidr]⟩)

/-- C1: if the local record was persisted and the remote mirror step
(create-remote-identity or assign-remote-role) fails for any reason, the
orchestrator deletes the just-created local record — a failed delete is
swallowed — and the whole operation fails with `BusinessLogicError`, never
with success: when the delete works the store is back to its pre-call rows
and a lookup by the attempted email finds nothing; when the delete itself
fails the store keeps the record but the caller still sees the
`BusinessLogicError`. -/
theorem registerUser_compensates
    (env : Env) (st : St) (i0 : RegisterInput) (u : User) (st1 : St) (m : String)
    (hpersist : svcCreateUser env st (forceClient i0) = (.ok u, st1))
    (hmirror : (kcMirror env ((forceClient i0).email.getD "")
        ((forceClient i0).password.getD "") ((forceClient i0).name.getD "")).1 =
      .error m) :
    (registerUser env i0 st).1 =
      .error (.business ("Error al crear usuario: " ++ m)) ∧
    (env.dbDeleteFails = false →
      (registerUser env i0 st).2.1.users = st.users ∧
      repoGetUserByEmail (registerUser env i0 st).2.1 u.email = none) ∧
    (env.dbDeleteFails = true → (registerUser env i0 st).2.1 = st1) := by
  obtain ⟨hval, hsvc, hu, hst1, hneml, hnid⟩ := svcCreateUser_ok_inversion hpersist
  have hvok : User.validate (mkUser env (forceClient i0)) = .ok () :=
    validate_ok_iff.mpr hval
  have hrole : (forceClient i0).role.getD "" ∈ validRoles := by
    simp [forceClient, validRoles]
  rcases hk : kcMirror env ((forceClient i0).email.getD "")
      ((forceClient i0).password.getD "") ((forceClient i0).name.getD "")
    with ⟨res, calls⟩
  have hres : res = .error m := by rw [hk] at hmirror; exact hmirror
  subst hres
  have e1 : registerUser env i0 st =
      (.error (.business ("Error al crear usuario: " ++ m)),
       (repoDeleteUser env.dbDeleteFails st1 u.id).2, calls) := by
    simp only [registerUser, registerUserForced, hvok]
    rw [if_neg (not_not_intro hrole), hpersist, hk]
  have huid : u.id = (mkUser env (forceClient i0)).id := by rw [hu]; rfl
  have huem : u.email = (mkUser env (forceClient i0)).email := by rw [hu]; rfl
  refine ⟨by rw [e1], ?_, ?_⟩
  · intro hdel
    have hfnone : st.users.find? (fun r => r.id == u.id) = none :=
      List.find?_eq_none.mpr fun r hr => by
        simp only [beq_iff_eq, huid]
        exact hnid r hr
    have hfirst : st1.users.find? (fun r => r.id == u.id) =
        some (modelToDb (mkUser env (forceClient i0))) := by
      rw [hst1]
      show ((st.users ++ [modelToDb (mkUser env (forceClient i0))]).find? _) = _
      rw [List.find?_append, hfnone]
      simp [huid, mkUser, modelToDb]
    have herase : (st1.users.eraseP fun r => r.id == u.id) = st.users := by
      rw [hst1]
      show ((st.users ++ [modelToDb (mkUser env (forceClient i0))]).eraseP _) = _
      rw [List.eraseP_append_right _
        (fun r hr => by simp only [beq_iff_eq, huid]; exact hnid r hr)]
      simp [List.eraseP, huid, mkUser, modelToDb]
    have e2 : (repoDeleteUser env.dbDeleteFails st1 u.id).2 =
        { st1 with users := st.users } := by
      unfold repoDeleteUser
      rw [if_neg (by simp [hdel]), hfirst, herase]
    constructor
    · rw [e1]
      show (repoDeleteUser env.dbDeleteFails st1 u.id).2.users = st.users
      rw [e2]
    · rw [e1]
      show repoGetUserByEmail (repoDeleteUser env.dbDeleteFails st1 u.id).2 u.email = none
      rw [e2]
      unfold repoGetUserByEmail
      rw [show ({ st1 with users := st.users } : St).users = st.users from rfl]
      rw [List.find?_eq_none.mpr fun r hr => by
        simp only [beq_iff_eq, huem]
        exact hneml r hr]
      rfl
  · intro hdel
    rw [e1]
    show (repoDeleteUser env.dbDeleteFails st1 u.id).2 = st1
    unfold repoDeleteUser
    rw [if_pos (by simp [hdel])]

/-! ### Concrete fixtures for the witnesses and counterexamples -/

/-- A gateway that accepts everything. -/
def cEnvOk : Env :=
  { freshId := "U-NEW", freshAssignId := "A-NEW", now := 5,
    kcCreateRes := fun _ _ _ => .ok "KC1",
    kcAssignRes := fun _ _ => .ok (),
    kcDeleteRes := fun _ => .ok (),
    dbDeleteFails := false }

/-- A gateway whose create-remote-identity call fails. -/
def cEnvKcFail : Env := { cEnvOk with kcCreateRes := fun _ _ _ => .error "boom" }

/-- A registration payload that passes every rule (the caller even asks for
an elevated role and a pre-enabled account). -/
def cInput : RegisterInput :=
  { name := some "Hosp A", tax_id := some "123", email := some "a@b.co",
    address := some "addr", phone := some "3001234567",
    institution_type := some "Hospital", specialty := some "Alto valor",
    applicant_name := some "X", applicant_email := some "x@y.co",
    password := some "longpass1", confirm_password := some "longpass1",
    role := some "Administrador", logo_filename := none, logo_url := none,
    enabled := some true }

def cSt0 : St := { users := [], assigns := [] }

def cU1 : User := dbToModel (modelToDb (mkUser cEnvKcFail (forceClient cInput)))

def cSt1 : St := { cSt0 with users := [modelToDb (mkUser cEnvKcFail (forceClient cInput))] }

/-- Witness for C1 at a concrete failing gateway. -/
theorem registerUser_compensates_witness :
    (registerUser cEnvKcFail cInput cSt0).1 =
      .error (.business ("Error al crear usuario: " ++
        "Error al crear usuario en Keycloak: boom")) ∧
    (cEnvKcFail.dbDeleteFails = false →
      (registerUser cEnvKcFail cInput cSt0).2.1.users = cSt0.users ∧
      repoGetUserByEmail (registerUser cEnvKcFail cInput cSt0).2.1 cU1.email = none) ∧
    (cEnvKcFail.dbDeleteFails = true →
      (registerUser cEnvKcFail cInput cSt0).2.1 = cSt1) :=
  registerUser_compensates cEnvKcFail cSt0 cInput cU1 cSt1
    "Error al crear usuario en Keycloak: boom" (by rfl) (by rfl)

/-- A successful mirror step consists of exactly the create call followed by
the role assignment. -/
theorem kcMirror_ok_calls {env : Env} {a b c kid : String} {calls : List KcCall}
    (h : kcMirror env a b c = (.ok kid, calls)) :
    calls = [.createU a b c, .assignR kid "Cliente"] := by
  unfold kcMirror at h
  split at h
  · cases h
  · split at h
    · cases h
    · injection h with h1 h2
      injection h1 with h1
      rw [← h2, h1]

/-- C2: whatever `role` and `enabled` the caller supplies, RegisterUser
overwrites them with `Cliente` and `False` before validation and
persistence — the call is insensitive to those two inputs, the model that is
validated carries the forced values, and on success the persisted row is
disabled and the mirrored role assignment is `Cliente`. -/
theorem registerUser_forces_client (env : Env) (i : RegisterInput)
    (r : Option String) (e : Option Bool) (st : St) :
    registerUser env { i with role := r, enabled := e } st =
      registerUser env i st ∧
    (mkUser env (forceClient i)).role = "Cliente" ∧
    (mkUser env (forceClient i)).enabled = false ∧
    ∀ u st2 calls, registerUser env i st = (.ok u, st2, calls) →
      (∃ row, st2.users = st.users ++ [row] ∧ row.enabled = false) ∧
      ∃ kid, KcCall.assignR kid "Cliente" ∈ calls := by
  refine ⟨rfl, rfl, rfl, ?_⟩
  intro u st2 calls hsucc
  unfold registerUser registerUserForced at hsucc
  cases hv : User.validate (mkUser env (forceClient i)) with
  | error m => rw [hv] at hsucc; cases hsucc
  | ok v =>
    cases v
    rw [hv] at hsucc
    rw [if_neg (not_not_intro (show (forceClient i).role.getD "" ∈ validRoles by
      simp [forceClient, validRoles]))] at hsucc
    cases hsc : svcCreateUser env st (forceClient i) with
    | mk res st1 =>
      rw [hsc] at hsucc
      cases res with
      | error ae => cases ae <;> cases hsucc
      | ok user =>
        rcases hk : kcMirror env ((forceClient i).email.getD "")
            ((forceClient i).password.getD "") ((forceClient i).name.getD "")
          with ⟨kres, kcalls⟩
        rw [hk] at hsucc
        cases kres with
        | error m => cases hsucc
        | ok kid =>
          obtain ⟨rfl, rfl, rfl⟩ : user = u ∧ st1 = st2 ∧ kcalls = calls := by
            injection hsucc with h1 h2
            injection h2 with h2 h3
            injection h1 with h1
            exact ⟨h1, h2, h3⟩
          obtain ⟨_, _, _, hst1, _, _⟩ := svcCreateUser_ok_inversion hsc
          refine ⟨⟨modelToDb (mkUser env (forceClient i)), ?_, rfl⟩, kid, ?_⟩
          · rw [hst1]
          · rw [kcMirror_ok_calls hk]
            simp

def cU2 : User := dbToModel (modelToDb (mkUser cEnvOk (forceClient cInput)))

def cSt2 : St := { cSt0 with users := [modelToDb (mkUser cEnvOk (forceClient cInput))] }

def cCalls2 : List KcCall :=
  [.createU "a@b.co" "longpass1" "Hosp A", .assignR "KC1" "Cliente"]

/-- Witness for C2: a caller asking for `Administrador` / `enabled=true`
gets the same outcome as one asking for nothing, and the persisted row is
disabled. -/
theorem registerUser_forces_client_witness :
    registerUser cEnvOk { cInput with role := some "Ventas", enabled := some true }
        cSt0 = registerUser cEnvOk cInput cSt0 ∧
    (∃ row, cSt2.users = cSt0.users ++ [row] ∧ row.enabled = false) ∧
    ∃ kid, KcCall.assignR kid "Cliente" ∈ cCalls2 := by
  have h := registerUser_forces_client cEnvOk cInput (some "Ventas") (some true) cSt0
  exact ⟨h.1, h.2.2.2 cU2 cSt2 cCalls2 (by rfl)⟩

/-- A violated model rule makes RegisterUser fail before any store access:
the result is the aggregated `ValidationError` and the store is unchanged. -/
theorem registerUser_validation_fails (env : Env) (st : St) (i : RegisterInput)
    (msg : String)
    (hm : msg ∈ userValidationErrors (mkUser env (forceClient i))) :
    (registerUser env i st).1 =
      .error (.validation (joinMsgs (userValidationErrors (mkUser env (forceClient i))))) ∧
    strContains (joinMsgs (userValidationErrors (mkUser env (forceClient i)))) msg ∧
    (registerUser env i st).2.1 = st := by
  have herr := validate_error_of_ne (List.ne_nil_of_mem hm)
  refine ⟨?_, joinMsgs_contains_of_mem hm, ?_⟩ <;>
    simp only [registerUser, registerUserForced, herr]

/-- The required registration fields and the message naming each, as the
pair (kwargs accessor, required-field message). -/
def reqFields : List ((RegisterInput → Option String) × String) :=
  [(fun i => i.name, msgNameReq), (fun i => i.tax_id, msgTaxReq),
   (fun i => i.email, msgEmailReq), (fun i => i.address, msgAddrReq),
   (fun i => i.phone, msgPhoneReq), (fun i => i.institution_type, msgInstReq),
   (fun i => i.specialty, msgSpecReq), (fun i => i.applicant_name, msgAppNameReq),
   (fun i => i.applicant_email, msgAppEmailReq), (fun i => i.password, msgPwReq),
   (fun i => i.confirm_password, msgConfirmReq)]

/-- C7: a registration payload missing any required field fails with a
`ValidationError` whose message lists that field's required-message, and
the store is unchanged by the failed call. -/
theorem registerUser_missing_required (env : Env) (st : St) (i : RegisterInput)
    (sel : RegisterInput → Option String) (msg : String)
    (hmem : (sel, msg) ∈ reqFields) (hmiss : sel i = none) :
    msg ∈ userValidationErrors (mkUser env (forceClient i)) ∧
    (registerUser env i st).1 =
      .error (.validation (joinMsgs (userValidationErrors (mkUser env (forceClient i))))) ∧
    strContains (joinMsgs (userValidationErrors (mkUser env (forceClient i)))) msg ∧
    (registerUser env i st).2.1 = st := by
  have hm : msg ∈ userValidationErrors (mkUser env (forceClient i)) := by
    simp only [reqFields, List.mem_cons, List.not_mem_nil, or_false] at hmem
    rcases hmem with h|h|h|h|h|h|h|h|h|h|h <;>
      (injection h with h1 h2; subst h1; subst h2;
       simp [userValidationErrors, nameErrs, taxErrs, emailErrs, addrErrs,
         phoneErrs, instErrs, logoErrs, specErrs, appNameErrs, appEmailErrs,
         pwErrs, confirmErrs, pwMatchErrs, roleErrs, mkUser, forceClient, hmiss])
  exact ⟨hm, registerUser_validation_fails env st i msg hm⟩

def cInputNoTax : RegisterInput := { cInput with tax_id := none }

/-- Witness for C7: a payload without a tax id. -/
theorem registerUser_missing_required_witness :
    msgTaxReq ∈ userValidationErrors (mkUser cEnvOk (forceClient cInputNoTax)) ∧
    (registerUser cEnvOk cInputNoTax cSt0).1 =
      .error (.validation
        (joinMsgs (userValidationErrors (mkUser cEnvOk (forceClient cInputNoTax))))) ∧
    strContains
      (joinMsgs (userValidationErrors (mkUser cEnvOk (forceClient cInputNoTax))))
      msgTaxReq ∧
    (registerUser cEnvOk cInputNoTax cSt0).2.1 = cSt0 :=
  registerUser_missing_required cEnvOk cSt0 cInputNoTax (fun i => i.tax_id)
    msgTaxReq (by unfold reqFields; exact List.Mem.tail _ (List.Mem.head _)) rfl

/-- C5: an input violating several rules yields one error whose message is
the `"; "`-join of every violated rule's message — each violated message
appears in it, not just the first. -/
theorem validate_aggregates_all (u : User)
    (h2 : 2 ≤ (userValidationErrors u).length) :
    User.validate u = .error (joinMsgs (userValidationErrors u)) ∧
    ∀ m ∈ userValidationErrors u,
      strContains (joinMsgs (userValidationErrors u)) m := by
  refine ⟨validate_error_of_ne ?_, fun m hm => joinMsgs_contains_of_mem hm⟩
  intro h
  rw [h] at h2
  simp at h2

/-- A user violating exactly the name rule and the phone-digits rule. -/
def cU5 : User :=
  { id := "u", name := "", tax_id := "1", email := "a@b.co", address := "x",
    phone := "12a4567", institution_type := "Hospital", logo_filename := "",
    logo_url := "", specialty := "Seguridad", applicant_name := "A",
    applicant_email := "a@b.co", password := "longpass1",
    confirm_password := "longpass1", role := "Cliente", keycloak_id := "",
    enabled := false, created_at := 0, updated_at := 0 }

/-- Witness for C5: two rules violated, both messages reported. -/
theorem validate_aggregates_all_witness :
    userValidationErrors cU5 = [msgNameReq, msgPhoneDigits] ∧
    (User.validate cU5 = .error (joinMsgs (userValidationErrors cU5)) ∧
     ∀ m ∈ userValidationErrors cU5,
       strContains (joinMsgs (userValidationErrors cU5)) m) :=
  ⟨by decide, validate_aggregates_all cU5 (by decide)⟩

/-- A registration payload whose spec-required fields are all valid but in
which tax id, address, applicant name, applicant email and logo filename
are absent. -/
def cInputC8 : RegisterInput :=
  { cInput with tax_id := none, address := none, applicant_name := none, applicant_email := none }

def cU8 : User := mkUser cEnvOk (forceClient cInputC8)

set_option maxRecDepth 8192 in
/-- C8 counterexample: with every field the claim calls required valid and
the five "not marked required" fields absent, the registration validator
does NOT succeed — tax id, address, applicant name and applicant email are
required by `User.validate` (each contributes its obligatorio message),
while every other rule (logo included) passes. -/
theorem optional_fields_counterexample :
    User.validate cU8 =
      .error (msgTaxReq ++ "; " ++ msgAddrReq ++ "; " ++ msgAppNameReq ++
        "; " ++ msgAppEmailReq) ∧
    nameErrs cU8 = [] ∧ emailErrs cU8 = [] ∧ phoneErrs cU8 = [] ∧
    instErrs cU8 = [] ∧ specErrs cU8 = [] ∧ pwErrs cU8 = [] ∧
    confirmErrs cU8 = [] ∧ pwMatchErrs cU8 = [] ∧ roleErrs cU8 = [] ∧
    logoErrs cU8 = [] := by decide

/-- C8 amended: of the five fields only the logo filename is optional —
absent or empty it never fails validation, and when present it only fails
past 255 characters; tax id, address, applicant name and applicant email
are required, an absent or empty value failing validation with the message
naming the field. -/
theorem optional_fields_amended (u : User)
    (hname : nameErrs u = []) (htax : taxErrs u = []) (hemail : emailErrs u = [])
    (haddr : addrErrs u = []) (hphone : phoneErrs u = []) (hinst : instErrs u = [])
    (hspec : specErrs u = []) (happn : appNameErrs u = [])
    (happe : appEmailErrs u = []) (hpw : pwErrs u = []) (hcf : confirmErrs u = [])
    (hpm : pwMatchErrs u = []) (hrole : roleErrs u = []) :
    (u.logo_filename = "" → User.validate u = .ok ()) ∧
    (u.logo_filename ≠ "" → strLen (pyStrip u.logo_filename) ≤ 255 →
      User.validate u = .ok ()) ∧
    (∀ v : User, v.tax_id = "" → msgTaxReq ∈ userValidationErrors v) ∧
    (∀ v : User, v.address = "" → msgAddrReq ∈ userValidationErrors v) ∧
    (∀ v : User, v.applicant_name = "" → msgAppNameReq ∈ userValidationErrors v) ∧
    (∀ v : User, v.applicant_email = "" → msgAppEmailReq ∈ userValidationErrors v) := by
  refine ⟨?_, ?_, ?_, ?_, ?_, ?_⟩
  · intro hl
    have hlogo : logoErrs u = [] := by simp [logoErrs, hl]
    exact validate_ok_iff.mpr (by
      simp [userValidationErrors, hname, htax, hemail, haddr, hphone, hinst,
        hspec, happn, happe, hpw, hcf, hpm, hrole, hlogo])
  · intro hl hlen
    have hlogo : logoErrs u = [] := by
      simp [logoErrs, hl, not_lt.mpr hlen]
    exact validate_ok_iff.mpr (by
      simp [userValidationErrors, hname, htax, hemail, haddr, hphone, hinst,
        hspec, happn, happe, hpw, hcf, hpm, hrole, hlogo])
  · intro v hv
    simp [userValidationErrors, taxErrs, hv]
  · intro v hv
    simp [userValidationErrors, addrErrs, hv]
  · intro v hv
    simp [userValidationErrors, appNameErrs, hv]
  · intro v hv
    simp [userValidationErrors, appEmailErrs, hv]

/-- Witness for the amended C8 at a fully-valid user with no logo. -/
theorem optional_fields_amended_witness :
    ((mkUser cEnvOk (forceClient cInput)).logo_filename = "" →
      User.validate (mkUser cEnvOk (forceClient cInput)) = .ok ()) ∧
    ((mkUser cEnvOk (forceClient cInput)).logo_filename ≠ "" →
      strLen (pyStrip (mkUser cEnvOk (forceClient cInput)).logo_filename) ≤ 255 →
      User.validate (mkUser cEnvOk (forceClient cInput)) = .ok ()) ∧
    (∀ v : User, v.tax_id = "" → msgTaxReq ∈ userValidationErrors v) ∧
    (∀ v : User, v.address = "" → msgAddrReq ∈ userValidationErrors v) ∧
    (∀ v : User, v.applicant_name = "" → msgAppNameReq ∈ userValidationErrors v) ∧
    (∀ v : User, v.applicant_email = "" → msgAppEmailReq ∈ userValidationErrors v) :=
  optional_fields_amended (mkUser cEnvOk (forceClient cInput))
    (by decide) (by decide) (by decide) (by decide) (by decide) (by decide)
    (by decide) (by decide) (by decide) (by decide) (by decide) (by decide)
    (by decide)

/-- The row inserted by the (spec-modelled) `create_admin_user` repository
method. -/
def admRow (env : Env) (n e kid : String) : UserRow :=
  { id := env.freshId, institution_name := n, tax_id := "", email := e,
    address := "", phone := "", institution_type := "", logo_filename := "",
    logo_url := "", specialty := "", applicant_name := "", applicant_email := "",
    keycloakId := some kid, enabled := true, created_at := env.now,
    updated_at := env.now }

/-- C3: a successful CreateAdminManagedUser call created the remote
identity and assigned the requested role, then persisted the local record
with `enabled = true` and the remote-identity reference recorded, and
returned the summary of that persisted record. -/
theorem createAdminUser_persists_enabled (env : Env) (st : St)
    (n e p r : String) (res : AdminSummary) (st2 : St) (calls : List KcCall)
    (h : createAdminUser env st n e p r = (.ok res, st2, calls)) :
    ∃ row kid,
      env.kcCreateRes e p n = .ok kid ∧
      kcAssignRole env kid r = .ok () ∧
      st2.users = st.users ++ [row] ∧
      row.enabled = true ∧
      row.keycloakId = some kid ∧
      res = { id := row.id, name := row.institution_name, email := row.email,
              role := r, enabled := row.enabled,
              created_at := row.created_at } := by
  unfold createAdminUser at h
  split at h
  · cases h
  · split at h
    · cases h
    · split at h
      · cases h
      · next kid hkc =>
        split at h
        · cases h
        · next v ha =>
          split at h
          · cases h
          · next cu st1 hrc =>
            unfold repoCreateAdminUser at hrc
            split at hrc
            · cases hrc
            · split at hrc
              · cases hrc
              · split at hrc
                · cases hrc
                · injection hrc with hc1 hc2
                  injection hc1 with hc1
                  obtain ⟨hres, hst, hcalls⟩ :
                      _ = res ∧ st1 = st2 ∧ _ = calls := by
                    injection h with h1 h2
                    injection h2 with h2 h3
                    injection h1 with h1
                    exact ⟨h1, h2, h3⟩
                  cases v
                  refine ⟨admRow env n e kid, kid, hkc, ha, ?_, rfl, rfl, ?_⟩
                  · rw [← hst, ← hc2]; rfl
                  · rw [← hres, ← hc1]; rfl

def cAdmRes : AdminSummary :=
  { id := "U-NEW", name := "Admin", email := "adm@x.co", role := "Compras",
    enabled := true, created_at := 5 }

def cAdmRow : UserRow :=
  { id := "U-NEW", institution_name := "Admin", tax_id := "", email := "adm@x.co",
    address := "", phone := "", institution_type := "", logo_filename := "",
    logo_url := "", specialty := "", applicant_name := "", applicant_email := "",
    keycloakId := some "KC1", enabled := true, created_at := 5, updated_at := 5 }

/-- Witness for C3 with an accepting gateway. -/
theorem createAdminUser_persists_enabled_witness :
    ∃ row kid,
      cEnvOk.kcCreateRes "adm@x.co" "longpass1" "Admin" = .ok kid ∧
      kcAssignRole cEnvOk kid "Compras" = .ok () ∧
      ({ cSt0 with users := [cAdmRow] } : St).users = cSt0.users ++ [row] ∧
      row.enabled = true ∧
      row.keycloakId = some kid ∧
      cAdmRes = { id := row.id, name := row.institution_name, email := row.email,
                  role := "Compras", enabled := row.enabled,
                  created_at := row.created_at } :=
  createAdminUser_persists_enabled cEnvOk cSt0 "Admin" "adm@x.co" "longpass1"
    "Compras" cAdmRes { cSt0 with users := [cAdmRow] }
    [.createU "adm@x.co" "longpass1" "Admin", .assignR "KC1" "Compras"]
    (by decide)

/-- C9: with an unknown seller id the detail listing fails with
`NotFoundError`; with a known seller every assignment whose client no
longer exists is skipped, so a seller all of whose assigned clients were
deleted gets an empty list, not an error. -/
theorem orphaned_clients_skipped (st : St) (sid : String) :
    (repoGetUserById st sid = none →
      getAssignedClientsWithDetails st sid =
        .error (.notFound (msgSellerNotFound sid))) ∧
    ∀ s, repoGetUserById st sid = some s →
      (∀ a ∈ st.assigns, a.seller_id = sid →
        repoGetUserById st a.client_id = none) →
      getAssignedClientsWithDetails st sid = .ok [] := by
  constructor
  · intro h
    simp only [getAssignedClientsWithDetails, h]
  · intro s hs hall
    have hnil : (repoAssignsBySeller st sid).filterMap
        (fun a => (repoGetUserById st a.client_id).map User.toDict) = [] := by
      rw [List.filterMap_eq_nil]
      intro a ha
      have hmem : a ∈ st.assigns :=
        (List.mem_filter.mp (List.mem_reverse.mp ha)).1
      have hsel : a.seller_id = sid := by
        have := (List.mem_filter.mp (List.mem_reverse.mp ha)).2
        simpa using this
      rw [hall a hmem hsel]
      rfl
    simp only [getAssignedClientsWithDetails, hs, hnil]

/-- A seller whose one assignment points to a client that was deleted. -/
def cRowS : UserRow :=
  { id := "S1", institution_name := "S", tax_id := "t", email := "s@x.co",
    address := "a", phone := "3001234567", institution_type := "Hospital",
    logo_filename := "", logo_url := "", specialty := "Seguridad",
    applicant_name := "n", applicant_email := "n@x.co", keycloakId := none,
    enabled := true, created_at := 1, updated_at := 1 }

def cStOrphan : St :=
  { users := [cRowS],
    assigns := [{ id := "A1", seller_id := "S1", client_id := "GONE",
                  created_at := 1, updated_at := 1 }] }

/-- Witness for C9: unknown seller errs, orphaned assignment is skipped. -/
theorem orphaned_clients_skipped_witness :
    getAssignedClientsWithDetails cStOrphan "NOPE" =
      .error (.notFound (msgSellerNotFound "NOPE")) ∧
    getAssignedClientsWithDetails cStOrphan "S1" = .ok [] := by
  have h1 := orphaned_clients_skipped cStOrphan "NOPE"
  have h2 := orphaned_clients_skipped cStOrphan "S1"
  exact ⟨h1.1 (by decide), h2.2 (dbToModel cRowS) (by decide) (by decide)⟩

/-! ### C10: the update frame lemmas -/

theorem applyCol_not_col {k : String} (hk : k ∉ userColumns) (r : UserRow)
    (v : Val) : applyCol r k v = r := by
  simp only [userColumns, List.mem_cons, List.not_mem_nil, or_false,
    not_or] at hk
  obtain ⟨h1, h2, h3, h4, h5, h6, h7, h8, h9, h10, h11, h12, h13, h14, h15⟩ := hk
  simp [applyCol, h1, h2, h3, h4, h5, h6, h7, h8, h9, h10, h11, h12, h13, h14, h15]

theorem foldl_applyCol_not_col (l : List (String × Val))
    (h : ∀ p ∈ l, p.1 ∉ userColumns) :
    ∀ x : UserRow, l.foldl (fun acc p => applyCol acc p.1 p.2) x = x := by
  induction l with
  | nil => intro x; rfl
  | cons p t ih =>
    intro x
    rw [List.foldl_cons, applyCol_not_col (h p (List.mem_cons_self p t))]
    exact ih (fun q hq => h q (List.mem_cons_of_mem p hq)) x

theorem applyKwargs_append_not_col (r : UserRow) (kw extra : List (String × Val))
    (h : ∀ p ∈ extra, p.1 ∉ userColumns) :
    applyKwargs r (kw ++ extra) = applyKwargs r kw := by
  unfold applyKwargs
  rw [List.foldl_append]
  exact foldl_applyCol_not_col extra h _

theorem colVal_applyCol_ne (r : UserRow) (k : String) (v : Val) (c : String)
    (h : ¬ k = c) : colVal (applyCol r k v) c = colVal r c := by
  by_cases h1 : k = "id"
  · subst h1
    have hc : ¬ c = "id" := fun e => h e.symm
    unfold applyCol
    cases v <;> simp [colVal, hc]
  by_cases h2 : k = "institution_name"
  · subst h2
    have hc : ¬ c = "institution_name" := fun e => h e.symm
    unfold applyCol
    cases v <;> simp [colVal, hc]
  by_cases h3 : k = "tax_id"
  · subst h3
    have hc : ¬ c = "tax_id" := fun e => h e.symm
    unfold applyCol
    cases v <;> simp [colVal, hc]
  by_cases h4 : k = "email"
  · subst h4
    have hc : ¬ c = "email" := fun e => h e.symm
    unfold applyCol
    cases v <;> simp [colVal, hc]
  by_cases h5 : k = "address"
  · subst h5
    have hc : ¬ c = "address" := fun e => h e.symm
    unfold applyCol
    cases v <;> simp [colVal, hc]
  by_cases h6 : k = "phone"
  · subst h6
    have hc : ¬ c = "phone" := fun e => h e.symm
    unfold applyCol
    cases v <;> simp [colVal, hc]
  by_cases h7 : k = "institution_type"
  · subst h7
    have hc : ¬ c = "institution_type" := fun e => h e.symm
    unfold applyCol
    cases v <;> simp [colVal, hc]
  by_cases h8 : k = "logo_filename"
  · subst h8
    have hc : ¬ c = "logo_filename" := fun e => h e.symm
    unfold applyCol
    cases v <;> simp [colVal, hc]
  by_cases h9 : k = "logo_url"
  · subst h9
    have hc : ¬ c = "logo_url" := fun e => h e.symm
    unfold applyCol
    cases v <;> simp [colVal, hc]
  by_cases h10 : k = "specialty"
  · subst h10
    have hc : ¬ c = "specialty" := fun e => h e.symm
    unfold applyCol
    cases v <;> simp [colVal, hc]
  by_cases h11 : k = "applicant_name"
  · subst h11
    have hc : ¬ c = "applicant_name" := fun e => h e.symm
    unfold applyCol
    cases v <;> simp [colVal, hc]
  by_cases h12 : k = "applicant_email"
  · subst h12
    have hc : ¬ c = "applicant_email" := fun e => h e.symm
    unfold applyCol
    cases v <;> simp [colVal, hc]
  by_cases h13 : k = "enabled"
  · subst h13
    have hc : ¬ c = "enabled" := fun e => h e.symm
    unfold applyCol
    cases v <;> simp [colVal, hc]
  by_cases h14 : k = "created_at"
  · subst h14
    have hc : ¬ c = "created_at" := fun e => h e.symm
    unfold applyCol
    cases v <;> simp [colVal, hc]
  by_cases h15 : k = "updated_at"
  · subst h15
    have hc : ¬ c = "updated_at" := fun e => h e.symm
    unfold applyCol
    cases v <;> simp [colVal, hc]
  rw [applyCol_not_col (by simp [userColumns, h1, h2, h3, h4, h5, h6, h7, h8, h9, h10, h11, h12, h13, h14, h15])]

theorem colVal_applyKwargs (kw : List (String × Val)) (c : String)
    (h : c ∉ kw.map Prod.fst) :
    ∀ r : UserRow, colVal (applyKwargs r kw) c = colVal r c := by
  induction kw with
  | nil => intro r; rfl
  | cons p t ih =>
    intro r
    simp only [List.map_cons, List.mem_cons, not_or] at h
    unfold applyKwargs at ih ⊢
    rw [List.foldl_cons]
    rw [ih (by simpa using h.2)]
    exact colVal_applyCol_ne r p.1 p.2 c (fun hk => h.1 hk.symm)

theorem colVal_updatedAt (x : UserRow) (n : Nat) (c : String)
    (h : ¬ c = "updated_at") :
    colVal { x with updated_at := n } c = colVal x c := by
  simp [colVal, h]

/-- C10: only kwargs naming a stored column are applied (`role`,
`password`, `confirm_password` name none and are silently ignored, as is
any other unknown key); every column not named in the request keeps its
value except `updated_at`, which is refreshed; updating a nonexistent id
returns `None` and leaves the store unchanged. -/
theorem update_only_columns (st : St) (uid : String)
    (kwargs : List (String × Val)) (now : Nat) :
    ("role" ∉ userColumns ∧ "password" ∉ userColumns ∧
      "confirm_password" ∉ userColumns) ∧
    (st.users.find? (fun r => r.id == uid) = none →
      repoUpdateUser st uid kwargs now = (none, st)) ∧
    ∀ row, st.users.find? (fun r => r.id == uid) = some row →
      ∃ row2,
        repoUpdateUser st uid kwargs now =
          (some (dbToModel row2),
           { st with users := replaceFirstById st.users uid row2 }) ∧
        row2 = { applyKwargs row kwargs with updated_at := now } ∧
        row2.updated_at = now ∧
        (∀ c, c ∉ kwargs.map Prod.fst → ¬ c = "updated_at" →
          colVal row2 c = colVal row c) ∧
        ∀ extra : List (String × Val), (∀ p ∈ extra, p.1 ∉ userColumns) →
          applyKwargs row (kwargs ++ extra) = applyKwargs row kwargs := by
  refine ⟨⟨by decide, by decide, by decide⟩, ?_, ?_⟩
  · intro h
    simp only [repoUpdateUser, h]
  · intro row hrow
    refine ⟨{ applyKwargs row kwargs with updated_at := now }, ?_, rfl, rfl, ?_, ?_⟩
    · simp only [repoUpdateUser, hrow]
    · intro c hc hup
      rw [colVal_updatedAt _ _ _ hup]
      exact colVal_applyKwargs kwargs c hc row
    · intro extra hex
      exact applyKwargs_append_not_col row kwargs extra hex

def cRowC : UserRow :=
  { cRowS with id := "C1", email := "c@x.co", enabled := false }

def cStUpd : St := { users := [cRowC], assigns := [] }

def cKwargs : List (String × Val) :=
  [("role", .str "Administrador"), ("password", .str "secret123"),
   ("confirm_password", .str "secret123"), ("enabled", .bool true)]

/-- Witness for C10: an update carrying `role`, `password`,
`confirm_password` and `enabled` keys. -/
theorem update_only_columns_witness :
    ("role" ∉ userColumns ∧ "password" ∉ userColumns ∧
      "confirm_password" ∉ userColumns) ∧
    ∃ row2,
      repoUpdateUser cStUpd "C1" cKwargs 9 =
        (some (dbToModel row2),
         { cStUpd with users := replaceFirstById cStUpd.users "C1" row2 }) ∧
      row2 = { applyKwargs cRowC cKwargs with updated_at := 9 } ∧
      row2.updated_at = 9 ∧
      (∀ c, c ∉ cKwargs.map Prod.fst → ¬ c = "updated_at" →
        colVal row2 c = colVal cRowC c) ∧
      ∀ extra : List (String × Val), (∀ p ∈ extra, p.1 ∉ userColumns) →
        applyKwargs cRowC (cKwargs ++ extra) = applyKwargs cRowC cKwargs := by
  have h := update_only_columns cStUpd "C1" cKwargs 9
  exact ⟨h.1, h.2.2 cRowC (by decide)⟩

/-! ### C4 and C6: assignment creation -/

theorem stripIfTruthy_of_trimmed {c : String} (hc : pyStrip c = c) :
    stripIfTruthy c = c := by
  unfold stripIfTruthy
  split
  · next h0 => exact h0.symm
  · exact hc

theorem find?_replaceFirstById (l : List UserRow) (uid : String) (new : UserRow)
    (hnew : (new.id == uid) = true) :
    ∀ r0, l.find? (fun r => r.id == uid) = some r0 →
      (replaceFirstById l uid new).find? (fun r => r.id == uid) = some new := by
  induction l with
  | nil => intro r0 h; cases h
  | cons x t ih =>
    intro r0 h
    by_cases hx : (x.id == uid) = true
    · unfold replaceFirstById
      rw [if_pos hx]
      exact List.find?_cons_of_pos _ hnew
    · unfold replaceFirstById
      rw [if_neg hx, List.find?_cons_of_neg _ (by simpa using hx)]
      rw [List.find?_cons_of_neg _ (by simpa using hx)] at h
      exact ih r0 h

/-- The user update touches only the users table; the assignments are
unchanged by it. -/
theorem repoUpdateUser_assigns (st : St) (uid : String)
    (kw : List (String × Val)) (now : Nat) :
    ((repoUpdateUser st uid kw now).2).assigns = st.assigns := by
  unfold repoUpdateUser
  cases st.users.find? fun r => r.id == uid <;> rfl

/-- C4 amended: when the supplied `client_id` carries no surrounding
whitespace (it equals its own strip), a successful CreateAssignment
persists the Assignment (the returned row is appended to the store) and
always leaves the client with `enabled = true`: re-fetching it afterwards
shows an enabled user, even if it was enabled before.  (With a padded id
the enabling update targets the untrimmed id and can silently miss, see
the counterexample.) -/
theorem assignment_enables_trimmed_client (env : Env) (st : St)
    (sOpt : Option String) (c : String) (hc : pyStrip c = c)
    (a : AssignedClient) (st2 : St)
    (h : svcCreateAssignment env st sOpt (some c) = (.ok a, st2)) :
    st2.assigns = st.assigns ++ [a] ∧
    ∃ u, repoGetUserById st2 c = some u ∧ u.enabled = true := by
  unfold svcCreateAssignment at h
  cases hval : svcAssignValidationErrors st sOpt (some c) with
  | cons e es => rw [hval] at h; cases h
  | nil =>
    rw [hval] at h
    have hv2 := hval
    simp only [svcAssignValidationErrors, Option.getD_some,
      stripIfTruthy_of_trimmed hc, List.append_eq_nil] at hv2
    obtain ⟨⟨⟨⟨⟨-, hreq⟩, -⟩, -⟩, hcli⟩, -⟩ := hv2
    have hcne : ¬ c = "" := by
      intro h0
      rw [if_pos h0] at hreq
      cases hreq
    have hsome : (repoGetUserById st c).isSome := by
      by_cases hn : (repoGetUserById st c).isNone
      · rw [if_pos ⟨hcne, hn⟩] at hcli; cases hcli
      · cases ho : repoGetUserById st c
        · rw [ho] at hn; simp at hn
        · simp
    obtain ⟨row0, hrow0⟩ : ∃ r0, st.users.find? (fun r => r.id == c) = some r0 := by
      unfold repoGetUserById at hsome
      cases hf : st.users.find? (fun r => r.id == c)
      · rw [hf] at hsome; simp at hsome
      · exact ⟨_, rfl⟩
    cases hrc : repoCreateAssign env st sOpt (some c) with
    | mk res st1 =>
      rw [hrc] at h
      cases res with
      | error pe => cases pe <;> cases h
      | ok arow =>
        have hinv : st1.users = st.users ∧ st1.assigns = st.assigns ++ [arow] := by
          unfold repoCreateAssign at hrc
          split at hrc
          · cases hrc
          · split at hrc
            · cases hrc
            · injection hrc with hc1 hc2
              injection hc1 with hc1
              refine ⟨by rw [← hc2], ?_⟩
              rw [← hc2, hc1]
        obtain ⟨hst1users, hst1assigns⟩ := hinv
        have h2 : (if c ≠ "" then
            ((Except.ok arow : Except AppError AssignedClient),
             (repoUpdateUser st1 c [("enabled", Val.bool true)] env.now).2)
          else (Except.ok arow, st1)) = (Except.ok a, st2) := h
        rw [if_pos hcne] at h2
        obtain ⟨rfl, rfl⟩ : arow = a ∧
            (repoUpdateUser st1 c [("enabled", Val.bool true)] env.now).2 = st2 := by
          injection h2 with hx1 hx2
          injection hx1 with hx1
          exact ⟨hx1, hx2⟩
        have happ : applyKwargs row0 [("enabled", Val.bool true)] =
            { row0 with enabled := true } := by
          simp [applyKwargs, applyCol]
        have hfind1 : st1.users.find? (fun r => r.id == c) = some row0 := by
          rw [hst1users]; exact hrow0
        have hpnew : (({ applyKwargs row0 [("enabled", Val.bool true)]
            with updated_at := env.now } : UserRow).id == c) = true := by
          rw [happ]
          simpa using List.find?_some hrow0
        refine ⟨?_, dbToModel { applyKwargs row0 [("enabled", Val.bool true)]
            with updated_at := env.now }, ?_, ?_⟩
        · rw [repoUpdateUser_assigns]
          exact hst1assigns
        · unfold repoUpdateUser
          rw [hfind1]
          unfold repoGetUserById
          show ((replaceFirstById st1.users c _).find? _).map dbToModel = _
          rw [find?_replaceFirstById st1.users c _ hpnew row0 hfind1]
          rfl
        · rw [happ]
          rfl

def cStSC : St := { users := [cRowS, cRowC], assigns := [] }

/-- The padded assignment row stored by the C4 counterexample call. -/
def cA4pad : AssignedClient :=
  { id := "A-NEW", seller_id := "S1", client_id := " C1 ",
    created_at := 5, updated_at := 5 }

/-- C4 counterexample: with client id `" C1 "` (padded) and an existing
client `"C1"` that is disabled, CreateAssignment succeeds and the
Assignment is persisted — validation strips the id and finds the client —
but the enabling update runs on the untrimmed id, matches no row, and is
silently ignored: re-fetching the client shows `enabled = false`, refuting
the unconditional enable. -/
theorem assignment_enable_counterexample :
    (svcCreateAssignment cEnvOk cStSC (some "S1") (some " C1 ")).1 =
      .ok cA4pad ∧
    (svcCreateAssignment cEnvOk cStSC (some "S1") (some " C1 ")).2.assigns =
      cStSC.assigns ++ [cA4pad] ∧
    ((repoGetUserById (svcCreateAssignment cEnvOk cStSC (some "S1")
        (some " C1 ")).2 "C1").map User.enabled) = some false ∧
    repoGetUserById (svcCreateAssignment cEnvOk cStSC (some "S1")
      (some " C1 ")).2 " C1 " = none := by decide

def cA4 : AssignedClient :=
  { id := "A-NEW", seller_id := "S1", client_id := "C1",
    created_at := 5, updated_at := 5 }

/-- Witness for the amended C4: with a trimmed client id the assignment is
appended to the store and the client is enabled on success. -/
theorem assignment_enables_trimmed_client_witness :
    (svcCreateAssignment cEnvOk cStSC (some "S1") (some "C1")).2.assigns =
      cStSC.assigns ++ [cA4] ∧
    ∃ u, repoGetUserById (svcCreateAssignment cEnvOk cStSC (some "S1")
        (some "C1")).2 "C1" = some u ∧ u.enabled = true :=
  assignment_enables_trimmed_client cEnvOk cStSC (some "S1") "C1" (by decide)
    cA4 (svcCreateAssignment cEnvOk cStSC (some "S1") (some "C1")).2 (by decide)

/-- C6 amended: for a stored (seller, client) pair whose ids carry no
surrounding whitespace, a second CreateAssignment with the same pair fails
with a `ValidationError` whose message contains "ya existe" and leaves the
store — hence the row count for the pair — unchanged.  (When the stored
ids are padded and another rule also fails, the aggregated message can
omit "ya existe", see the counterexample.) -/
theorem duplicate_assignment_rejected (env : Env) (st : St) (s c : String)
    (hs : pyStrip s = s) (hc : pyStrip c = c) (hsne : s ≠ "") (hcne : c ≠ "")
    (hex : existsAssignment st s c = true) :
    (∃ m, (svcCreateAssignment env st (some s) (some c)).1 =
        .error (.validation m) ∧ strContains m "ya existe") ∧
    (svcCreateAssignment env st (some s) (some c)).2 = st := by
  have hmem : msgAssignDup ∈ svcAssignValidationErrors st (some s) (some c) := by
    simp only [svcAssignValidationErrors, Option.getD_some,
      stripIfTruthy_of_trimmed hs, stripIfTruthy_of_trimmed hc]
    refine List.mem_append_right _ ?_
    rw [if_pos ⟨hsne, hcne, hex⟩]
    exact List.mem_singleton.mpr rfl
  cases hval : svcAssignValidationErrors st (some s) (some c) with
  | nil => rw [hval] at hmem; cases hmem
  | cons e es =>
    refine ⟨⟨joinMsgs (e :: es), ?_, ?_⟩, ?_⟩
    · simp only [svcCreateAssignment, hval]
    · have h1 : strContains msgAssignDup "ya existe" := by decide
      have h2 : strContains (joinMsgs (e :: es)) msgAssignDup :=
        joinMsgs_contains_of_mem (hval ▸ hmem)
      exact strContains_trans h1 h2
    · simp only [svcCreateAssignment, hval]

def cStC6 : St :=
  { users := [cRowC],
    assigns := [{ id := "A1", seller_id := " S1 ", client_id := "C1",
                  created_at := 1, updated_at := 1 }] }

/-- C6 counterexample: the pair `(" S1 ", "C1")` is stored (count 1; it was
created while a user `S1` existed, validated against the stripped ids, and
the seller was deleted afterwards).  A second CreateAssignment with the
same pair fails with a `ValidationError` — but its message is only the
missing-seller error and does not contain "ya existe": the service checks
the stripped pair while the store holds the padded one. -/
theorem duplicate_assignment_counterexample :
    pairCount cStC6 " S1 " "C1" = 1 ∧
    (svcCreateAssignment cEnvOk cStC6 (some " S1 ") (some "C1")).1 =
      .error (.validation (msgNoSeller "S1")) ∧
    ¬ strContains (msgNoSeller "S1") "ya existe" ∧
    (svcCreateAssignment cEnvOk cStC6 (some " S1 ") (some "C1")).2 = cStC6 := by
  decide

def cStDup : St :=
  { users := [],
    assigns := [{ id := "A1", seller_id := "S1", client_id := "C1",
                  created_at := 1, updated_at := 1 }] }

/-- Witness for the amended C6 at a stored trimmed pair. -/
theorem duplicate_assignment_rejected_witness :
    (∃ m, (svcCreateAssignment cEnvOk cStDup (some "S1") (some "C1")).1 =
        .error (.validation m) ∧ strContains m "ya existe") ∧
    (svcCreateAssignment cEnvOk cStDup (some "S1") (some "C1")).2 = cStDup :=
  duplicate_assignment_rejected cEnvOk cStDup "S1" "C1" (by decide) (by decide)
    (by decide) (by decide) (by decide)

end MediSupply
